import Mathlib

/-!
Shallow embedding of the `finddd` filesystem-search engine
(`src/finddd/match.py` and `src/finddd/find.py`).

Modelling conventions:
* A Python value that may be `None` becomes `Option _`.
* Python `int` becomes `Int`; counters that can only grow from 0 use `Nat`
  with explicit `Int` coercions where the source compares to an `int` cap.
* A Python call or method that can raise becomes `Except PyError _`; the
  particular exception class raised is recorded in `PyError`.
* A `pathlib.Path` entry together with the metadata its `stat()` would
  return is the structure `Entry` (filesystem races are out of scope).
* External collaborators from the standard library (`re.compile`,
  `fnmatch.fnmatch`, `datetime.fromtimestamp`) are abstracted as function
  parameters bundled in `PyLib`; a compiled regular expression is
  abstracted as its truthy `match` behaviour `String → Bool`.
-/

/-- Python exception classes that the embedded code can raise. -/
inductive PyError where
  | typeError
  | assertionError
  | notImplementedError
  | attributeError
  | reError
  deriving DecidableEq, Repr

/-- What `stat.S_IS*` reports for an entry's `st_mode`. -/
inductive FKind where
  | dir
  | regular
  | symlink
  | socket
  | fifo
  | other
  deriving DecidableEq, Repr

/-- A filesystem entry: its `pathlib.Path` (as `Path.parts`) plus the
metadata that `path.stat()` and `path.iterdir()` would produce. -/
structure Entry where
  parts : List String
  kind : FKind
  size : Int
  mtimeNs : Int
  childCount : Nat
  deriving DecidableEq, Repr

/-- `pathlib.Path.name`: the final path component, empty for the root
anchor alone. -/
def Entry.name (e : Entry) : String :=
  match e.parts.getLast? with
  | none => ""
  | some s => if s = "/" then "" else s

/-- Index of the last occurrence of a character in a list (Python
`str.rfind`, restricted to the found case). -/
def lastIdxOf (c : Char) : List Char → Option Nat
  | [] => none
  | a :: as =>
    match lastIdxOf c as with
    | some i => some (i + 1)
    | none => if a = c then some 0 else none

/-- `pathlib.Path.suffix`: `name[i:]` for `i = name.rfind('.')` when
`0 < i < len(name) - 1`, else the empty string. -/
def Entry.suffix (e : Entry) : String :=
  let n := e.name
  match lastIdxOf '.' n.data with
  | some i => if 0 < i ∧ i < n.length - 1 then String.mk (n.data.drop i) else ""
  | none => ""

/-- External standard-library collaborators used by the matchers. -/
structure PyLib where
  reCompile : String → Except PyError (String → Bool)
  fnmatch : String → String → Bool
  fromTimestamp : Int → Int

/-! ## match.py: the matcher classes -/

/-- `HiddenMatcher` (match.py:104-111). -/
structure HiddenMatcher where
  hidden : Bool

/-- `HiddenMatcher.match`: when `hidden` is set always `True`, otherwise
reject names starting with `"."`. -/
def HiddenMatcher.match' (m : HiddenMatcher) (e : Entry) : Bool :=
  if m.hidden then true else !(e.name.startsWith ".")

/-- `FilenameMatchMode` (match.py:30-34). -/
inductive FilenameMatchMode where
  | FMM_EXACT
  | FMM_STR
  | FMM_GLOB
  | FMM_RE
  deriving DecidableEq, Repr

/-- The `Union[str, re.Pattern[str]]` pattern argument and stored
attribute of `FilenameMather`; a compiled `re.Pattern` is abstracted as
its truthy `match` behaviour on a candidate name. -/
inductive PyPattern where
  | str (s : String)
  | compiled (r : String → Bool)

/-- `FilenameMather` (match.py:37-72): stored `mode`, `pattern`,
`ignore_case` attributes. -/
structure FilenameMather where
  mode : FilenameMatchMode
  pattern : PyPattern
  ignore_case : Bool

/-- Python `str.lower` on the characters of the string (`String.mk` of
the character-wise lowering, which evaluates structurally). -/
def pyLower (s : String) : String := String.mk (s.data.map Char.toLower)

/-- `FilenameMather.__init__` (match.py:38-58): lower-case a string
pattern when `ignore_case` and the mode is not regex; a compiled pattern
forces regex mode; a string pattern in regex mode is compiled now
(`re.compile`, which raises `re.error` on bad syntax at configuration
time). -/
def FilenameMather.init (compile : String → Except PyError (String → Bool))
    (pattern : PyPattern) (ignore_case : Bool) (mode : FilenameMatchMode) :
    Except PyError FilenameMather :=
  let pattern : PyPattern :=
    match pattern with
    | .str s => if ignore_case ∧ mode ≠ .FMM_RE then .str (pyLower s) else .str s
    | p => p
  let mode : FilenameMatchMode :=
    match pattern with
    | .compiled _ => .FMM_RE
    | _ => mode
  match mode, pattern with
  | .FMM_RE, .str s => do
    let r ← compile s
    .ok ⟨.FMM_RE, .compiled r, ignore_case⟩
  | m, p => .ok ⟨m, p, ignore_case⟩

/-- Python `sub in s` on strings: contiguous substring containment. -/
def substrOf (sub s : String) : Bool :=
  s.data.tails.any (fun t => sub.data.isPrefixOf t)

/-- `FilenameMather.match` (match.py:60-72). The local `name` (lower-cased
when `ignore_case`) is computed exactly as in the source and, as in the
source, never used afterwards: every branch compares against `path.name`.
In `FMM_STR`/`FMM_GLOB` a compiled pattern would raise `TypeError`
(`in`/`fnmatch` need a string); in `FMM_RE` a string pattern would raise
`AttributeError` (`str` has no `.match`); neither is reachable through
`FilenameMather.init`. -/
def FilenameMather.match' (fnm : String → String → Bool)
    (m : FilenameMather) (e : Entry) : Except PyError Bool :=
  let _name := if m.ignore_case then pyLower e.name else e.name
  match m.mode with
  | .FMM_EXACT =>
    match m.pattern with
    | .str s => .ok (e.name == s)
    | .compiled _ => .ok false
  | .FMM_STR =>
    match m.pattern with
    | .str s => .ok (substrOf s e.name)
    | .compiled _ => .error .typeError
  | .FMM_GLOB =>
    match m.pattern with
    | .str s => .ok (fnm e.name s)
    | .compiled _ => .error .typeError
  | .FMM_RE =>
    match m.pattern with
    | .compiled r => .ok (r e.name)
    | .str _ => .error .attributeError

/-- `SizeMatcher` (match.py:75-101). -/
structure SizeMatcher where
  min : Option Int
  max : Option Int
  within : Bool

/-- `SizeMatcher.__init__` (match.py:76-90): with `within`, asserts
`min is not None`, `max is not None`, `min < max`, in that order. -/
def SizeMatcher.init (min max : Option Int) (within : Bool) :
    Except PyError SizeMatcher :=
  if within then
    match min, max with
    | none, _ => .error .assertionError
    | some _, none => .error .assertionError
    | some a, some b =>
      if a < b then .ok ⟨min, max, within⟩ else .error .assertionError
  else .ok ⟨min, max, within⟩

/-- Python truthiness of an `Optional[int]`: `None` and `0` are falsy. -/
def optTruthy : Option Int → Bool
  | none => false
  | some v => v ≠ 0

/-- `SizeMatcher.match` (match.py:92-101). The `within` branch is the
chained comparison `self.min < s < self.max` (left side first,
short-circuiting, `TypeError` on a `None` operand); the other branches
are guarded by truthiness (`if self.min:` / `if self.max:`), so a bound
of `0` behaves as unset. -/
def SizeMatcher.match' (m : SizeMatcher) (e : Entry) : Except PyError Bool :=
  let s := e.size
  if m.within then
    match m.min with
    | none => .error .typeError
    | some a =>
      if ¬ a < s then .ok false
      else
        match m.max with
        | none => .error .typeError
        | some b => .ok (decide (s < b))
  else if optTruthy m.min then .ok (decide (s > m.min.getD 0))
  else if optTruthy m.max then .ok (decide (s < m.max.getD 0))
  else .ok true

/-- `IgnoreFileMatcher` (match.py:114-120): `__init__(self)` takes no
configuration. -/
structure IgnoreFileMatcher where
  mk ::

/-- `IgnoreFileMatcher()` as declared (match.py:115-116): succeeds. -/
def IgnoreFileMatcher.init : Except PyError IgnoreFileMatcher := .ok ⟨⟩

/-- The call `IgnoreFileMatcher(enable=self.no_ignore)` made by
`Finder.find` (find.py:64): `IgnoreFileMatcher.__init__` (match.py:115)
accepts no `enable` keyword, so the call raises `TypeError`. -/
def IgnoreFileMatcher.initEnable (_enable : Bool) :
    Except PyError IgnoreFileMatcher := .error .typeError

/-- `IgnoreFileMatcher.match` (match.py:118-120): raises
`NotImplementedError` on every invocation. -/
def IgnoreFileMatcher.match' (_ : IgnoreFileMatcher) (_ : Entry) :
    Except PyError Bool := .error .notImplementedError

/-- `FileType` (match.py:123-130), whose values are the one-letter codes. -/
inductive FileType where
  | FT_DIRECTORY
  | FT_FILE
  | FT_SYMLINK
  | FT_EXECUTABLE
  | FT_EMPTY
  | FT_SOCKET
  | FT_PIPE
  deriving DecidableEq, Repr

/-- An element of the `*types` tuple of `FileTypeMatcher`: `Finder.find`
annotates it `list[Union[FileType, str]]`, so both enum members and raw
string codes can arrive. -/
inductive TypeArg where
  | enum (ft : FileType)
  | str (s : String)
  deriving DecidableEq, Repr

/-- `FileTypeMatcher` (match.py:133-163). -/
structure FileTypeMatcher where
  types : List TypeArg
  deriving DecidableEq, Repr

/-- `FileTypeMatcher.__init__` (match.py:134-135): stores the tuple,
cannot fail. -/
def FileTypeMatcher.init (types : List TypeArg) : Except PyError FileTypeMatcher :=
  .ok ⟨types⟩

/-- One step of `fns.get(i, lambda _: False)()` (match.py:153-162): the
dict `fns` is keyed by the one-letter strings, so an actual `FileType`
enum member misses every key and the default `lambda _: False` is called
with zero arguments, raising `TypeError`; the `"x"` entry is
`is_excutable`, which raises `NotImplementedError` when called. -/
def ftCheck (e : Entry) : TypeArg → Except PyError Bool
  | .str "d" => .ok (e.kind == .dir)
  | .str "f" => .ok (e.kind == .regular)
  | .str "l" => .ok (e.kind == .symlink)
  | .str "x" => .error .notImplementedError
  | .str "e" =>
    .ok (if e.kind == .dir then e.childCount == 0
         else if e.kind == .regular then e.size == 0 else false)
  | .str "s" => .ok (e.kind == .socket)
  | .str "p" => .ok (e.kind == .fifo)
  | _ => .error .typeError

/-- `any(... for i in self.types)`: lazy, stops at the first `True`. -/
def ftAny (e : Entry) : List TypeArg → Except PyError Bool
  | [] => .ok false
  | t :: ts => do
    if (← ftCheck e t) then pure true else ftAny e ts

/-- `FileTypeMatcher.match` (match.py:137-163): with an empty type set
everything matches, otherwise an OR over the requested kinds. -/
def FileTypeMatcher.match' (m : FileTypeMatcher) (e : Entry) :
    Except PyError Bool :=
  match m.types with
  | [] => .ok true
  | _ => ftAny e m.types

/-- `SuffixMatcher` (match.py:166-173). -/
structure SuffixMatcher where
  suffixes : List String

/-- `SuffixMatcher.__init__` (match.py:167-168): drop empty strings,
prepend `"."` to each suffix not already starting with it. -/
def SuffixMatcher.init (suffixes : List String) : SuffixMatcher :=
  ⟨(suffixes.filter (· ≠ "")).map
    (fun i => if i.startsWith "." then i else "." ++ i)⟩

/-- `SuffixMatcher.match` (match.py:170-173). -/
def SuffixMatcher.match' (m : SuffixMatcher) (e : Entry) : Bool :=
  match m.suffixes with
  | [] => true
  | _ => m.suffixes.contains e.suffix

/-- `DepthMatcher` (match.py:176-199); `cur` holds `Path.parts` of the
root the depth is measured against. -/
structure DepthMatcher where
  cur : List String
  max : Option Int
  min : Option Int
  exact : Option Int

/-- The call `DepthMatcher(path, exact=…, min=…, max=…, within=…)` made
by `Finder.find` (find.py:68-76): `DepthMatcher.__init__`
(match.py:177-188) has no `within` parameter, so the call raises
`TypeError`. -/
def DepthMatcher.initWithin (_cur : List String)
    (_exact _min _max : Option Int) (_within : Bool) :
    Except PyError DepthMatcher := .error .typeError

/-- `DepthMatcher.match` (match.py:190-199): depth is the part-count
difference, asserted non-negative; then `exact`, `min`, `max` are
honored in that priority order, `min`/`max` strictly. -/
def DepthMatcher.match' (m : DepthMatcher) (e : Entry) : Except PyError Bool :=
  let depth : Int := (e.parts.length : Int) - (m.cur.length : Int)
  if depth < 0 then .error .assertionError
  else
    match m.exact with
    | some ex => .ok (decide (ex = depth))
    | none =>
      match m.min with
      | some mn => .ok (decide (depth > mn))
      | none =>
        match m.max with
        | some mx => .ok (decide (depth < mx))
        | none => .ok true

/-- `ChangeTimeMatcher` (match.py:202-227); datetimes are modelled as
`Int` (comparison order is all the code uses). -/
structure ChangeTimeMatcher where
  older : Option Int
  newer : Option Int
  within : Bool

/-- `ChangeTimeMatcher.__init__` (match.py:203-217): with `within` the
source asserts `newer is None`, then `older is None`, then
`older < newer`; the first two are inverted relative to
`SizeMatcher.__init__`, and the third compares `None < None` (a
`TypeError`) when both asserts pass, so `within=True` construction
always raises. -/
def ChangeTimeMatcher.init (older newer : Option Int) (within : Bool) :
    Except PyError ChangeTimeMatcher :=
  if within then
    match newer with
    | some _ => .error .assertionError
    | none =>
      match older with
      | some _ => .error .assertionError
      | none => .error .typeError
  else .ok ⟨older, newer, within⟩

/-- `ChangeTimeMatcher.match` (match.py:219-227): converts
`st_mtime_ns` through `datetime.fromtimestamp`; with `within` the
chained comparison `self.older < t < self.newer`; otherwise `newer`
then `older`, checked with `is not None`. -/
def ChangeTimeMatcher.match' (fromTs : Int → Int) (m : ChangeTimeMatcher)
    (e : Entry) : Except PyError Bool :=
  let t := fromTs e.mtimeNs
  if m.within then
    match m.older with
    | none => .error .typeError
    | some a =>
      if ¬ a < t then .ok false
      else
        match m.newer with
        | none => .error .typeError
        | some b => .ok (decide (t < b))
  else
    match m.newer with
    | some b => .ok (decide (t > b))
    | none =>
      match m.older with
      | some a => .ok (decide (t < a))
      | none => .ok true

/-- `MaxResultMatcher` (match.py:230-240): `max` cap and the mutable
`_count`, starting at 0. -/
structure MaxResultMatcher where
  max : Int
  count : Nat
  deriving DecidableEq, Repr

/-- `MaxResultMatcher.__init__` (match.py:231-233). -/
def MaxResultMatcher.init (max : Int) : MaxResultMatcher := ⟨max, 0⟩

/-- `MaxResultMatcher.match` (match.py:235-240): when the cap is
positive, return whether the pre-increment count is below the cap and
increment unconditionally; when the cap is not positive, always `True`
and no increment. The result and the state change depend only on the
matcher's own state, never on the caller. -/
def MaxResultMatcher.match' (m : MaxResultMatcher) (_ : Entry) :
    Bool × MaxResultMatcher :=
  if 0 < m.max then
    (decide ((m.count : Int) < m.max), { m with count := m.count + 1 })
  else (true, m)

/-- A sequence of `match` invocations routed through one
`MaxResultMatcher` instance, in evaluation order, threading its state. -/
def mrmRun (m : MaxResultMatcher) : List Entry → List Bool × MaxResultMatcher
  | [] => ([], m)
  | e :: es =>
    let (b, m') := m.match' e
    let (bs, m'') := mrmRun m' es
    (b :: bs, m'')

/-- `MultiMatcher.match` (match.py:243-253) for side-effect-free
wrapped predicates, each abstracted as its `match` function: `all(...)`
over the wrapped matchers in insertion order (vacuously `True` when the
tuple is empty). The stateful/raising composition actually assembled by
`Finder.find` is embedded separately below. -/
def MultiMatcher.match' (ms : List (Entry → Bool)) (e : Entry) : Bool :=
  match ms with
  | [] => true
  | _ => ms.all (fun m => m e)

/-! ## find.py: Finder and the traversal -/

/-- The `Finder` configuration attributes set by `Finder.__init__`
(find.py:16-23); `threads` and the callback dispatcher
(`ThreadPoolExecutor`) are not modelled — the embedded `find` returns
the accumulated match list that the dispatcher would map the callback
over. -/
structure Finder where
  exclude : List String
  glob : Bool
  hidden : Bool
  no_ignore : Bool
  ignore_case : Bool
  follow : Bool

/-- `Finder()` defaults (find.py:16-23). -/
def Finder.default : Finder := ⟨[], false, false, true, false, false⟩

/-- An in-memory directory tree standing for the filesystem that
`os.walk` would list: a file with its `st_size` and `st_mtime_ns`, or a
directory with its own stat numbers and children in listing order. -/
inductive FSNode where
  | file (name : String) (size : Int) (mtimeNs : Int)
  | dir (name : String) (size : Int) (mtimeNs : Int) (children : List FSNode)
  deriving Repr

/-- Whether `os.walk` puts the node in the `dirs` partition. -/
def FSNode.isDir : FSNode → Bool
  | .dir _ _ _ _ => true
  | .file _ _ _ => false

/-- The name of a node. -/
def FSNode.name : FSNode → String
  | .file n _ _ => n
  | .dir n _ _ _ => n

/-- The `Entry` (`Path(cwd) / name` plus its stat data) for a node that
lives in the directory whose `Path.parts` is `cwd`. -/
def nodeEntry (cwd : List String) : FSNode → Entry
  | .file n sz mt => ⟨cwd ++ [n], .regular, sz, mt, 0⟩
  | .dir n sz mt ch => ⟨cwd ++ [n], .dir, sz, mt, ch.length⟩

/-- The matcher instances `Finder.find` builds (find.py:47-88), plus the
library collaborators; the single `MaxResultMatcher` instance is
threaded separately as mutable state. -/
structure Pipeline where
  lib : PyLib
  hm : HiddenMatcher
  excl : List FilenameMather
  im : IgnoreFileMatcher
  ftm : FileTypeMatcher
  dm : DepthMatcher
  ctm : ChangeTimeMatcher
  fm : FilenameMather
  sm : SizeMatcher
  sufm : SuffixMatcher

/-- The `NotMatcher(FilenameMather(...))` exclusion sequence inside
`nmm` (find.py:54-63): `all` over the negated glob matchers, stopping
at the first exclusion hit. -/
def exclAll (fnm : String → String → Bool) :
    List FilenameMather → Entry → Except PyError Bool
  | [], _ => .ok true
  | m :: ms, e => do
    let b ← m.match' fnm e
    if b then .ok false else exclAll fnm ms e

/-- `nmm.match` (find.py:53-64): `HiddenMatcher`, the negated exclusion
globs, then `IgnoreFileMatcher` (which raises when reached). -/
def nmmMatch (c : Pipeline) (e : Entry) : Except PyError Bool :=
  if !(c.hm.match' e) then .ok false
  else do
    let ex ← exclAll c.lib.fnmatch c.excl e
    if !ex then .ok false
    else c.im.match' e

/-- `cmm.match` (find.py:66-80): `nmm`, `FileTypeMatcher`,
`DepthMatcher`, `ChangeTimeMatcher`, then the primary
`FilenameMather`, in insertion order with `all` short-circuiting. -/
def cmmMatch (c : Pipeline) (e : Entry) : Except PyError Bool := do
  let a ← nmmMatch c e
  if !a then return false
  let b ← c.ftm.match' e
  if !b then return false
  let d ← c.dm.match' e
  if !d then return false
  let t ← c.ctm.match' c.lib.fromTimestamp e
  if !t then return false
  c.fm.match' c.lib.fnmatch e

/-- `dmm.match` (find.py:50, 88): `cmm` then the shared
`MaxResultMatcher` (which is only invoked when `cmm` accepted). -/
def dmmMatch (c : Pipeline) (e : Entry) (mrm : MaxResultMatcher) :
    Except PyError (Bool × MaxResultMatcher) := do
  let a ← cmmMatch c e
  if !a then return (false, mrm)
  return mrm.match' e

/-- `fmm.match` (find.py:51, 82-87): `SizeMatcher`, `SuffixMatcher`,
`cmm`, then the same shared `MaxResultMatcher` instance. -/
def fmmMatch (c : Pipeline) (e : Entry) (mrm : MaxResultMatcher) :
    Except PyError (Bool × MaxResultMatcher) := do
  let s ← c.sm.match' e
  if !s then return (false, mrm)
  if !(c.sufm.match' e) then return (false, mrm)
  let a ← cmmMatch c e
  if !a then return (false, mrm)
  return mrm.match' e

/-- `g(cwd, ds, dmm)` (find.py:90-92, 96) over the sub-directory
partition: evaluate `dmm` on each child in listing order, keeping the
matches, threading the shared counter. -/
def runDMM (c : Pipeline) (cwd : List String) :
    List FSNode → MaxResultMatcher →
    Except PyError (List Entry × MaxResultMatcher)
  | [], mrm => .ok ([], mrm)
  | n :: ns, mrm => do
    let e := nodeEntry cwd n
    let (b, mrm) ← dmmMatch c e mrm
    let (rest, mrm) ← runDMM c cwd ns mrm
    .ok ((if b then [e] else []) ++ rest, mrm)

/-- `g(cwd, nonds, fmm)` (find.py:90-92, 96) over the non-directory
partition. -/
def runFMM (c : Pipeline) (cwd : List String) :
    List FSNode → MaxResultMatcher →
    Except PyError (List Entry × MaxResultMatcher)
  | [], mrm => .ok ([], mrm)
  | n :: ns, mrm => do
    let e := nodeEntry cwd n
    let (b, mrm) ← fmmMatch c e mrm
    let (rest, mrm) ← runFMM c cwd ns mrm
    .ok ((if b then [e] else []) ++ rest, mrm)

mutual

/-- One `os.walk` visit of the directory node located at `selfPath`
(find.py:95-97): partition the children, accumulate the `dmm` matches
over the sub-directories then the `fmm` matches over the
non-directories, compute the pruned descent list with `nmm`
(`ds[:] = ...`), and recurse into the kept sub-directories in order. -/
def walkNode (c : Pipeline) (selfPath : List String) :
    FSNode → MaxResultMatcher → Except PyError (List Entry × MaxResultMatcher)
  | .file _ _ _, mrm => .ok ([], mrm)
  | .dir _ _ _ children, mrm => do
    let ds := children.filter FSNode.isDir
    let nonds := children.filter (fun n => !n.isDir)
    let (dmatches, mrm) ← runDMM c selfPath ds mrm
    let (fmatches, mrm) ← runFMM c selfPath nonds mrm
    let keeps ← children.mapM (fun n =>
      if n.isDir then nmmMatch c (nodeEntry selfPath n) else .ok false)
    let (rest, mrm) ← walkKept c selfPath children keeps mrm
    .ok (dmatches ++ fmatches ++ rest, mrm)

/-- Recursion into the pruned sub-directories, pairing each child with
its precomputed descent verdict. -/
def walkKept (c : Pipeline) (selfPath : List String) :
    List FSNode → List Bool → MaxResultMatcher →
    Except PyError (List Entry × MaxResultMatcher)
  | [], _, mrm => .ok ([], mrm)
  | _ :: ns, [], mrm => walkKept c selfPath ns [] mrm
  | n :: ns, k :: ks, mrm => do
    if k then do
      let (sub, mrm) ← walkNode c (selfPath ++ [n.name]) n mrm
      let (rest, mrm) ← walkKept c selfPath ns ks mrm
      .ok (sub ++ rest, mrm)
    else walkKept c selfPath ns ks mrm

end

/-- `Finder.find` (find.py:25-100): build the matcher pipeline in
source order, then walk the tree rooted at `root` (whose own
`Path.parts` is `rootParts`) and return the accumulated matches in
discovery order. The construction sequence raises `TypeError` at
`IgnoreFileMatcher(enable=self.no_ignore)` (find.py:64) on every call —
and would raise again at `DepthMatcher(..., within=...)` (find.py:68-76)
— so the walk is never reached. -/
def Finder.find (f : Finder) (lib : PyLib) (pattern : PyPattern)
    (rootParts : List String) (root : FSNode)
    (size_min size_max : Option Int) (size_within : Bool)
    (time_newer time_older : Option Int) (time_within : Bool)
    (filetypes : List TypeArg)
    (depth_exact depth_min depth_max : Option Int) (depth_within : Bool)
    (suffixes : List String) (exclude : List String) (max_result : Int) :
    Except PyError (List Entry) := do
  let hm : HiddenMatcher := ⟨f.hidden⟩
  let excl ← (f.exclude ++ exclude).mapM
    (fun i => FilenameMather.init lib.reCompile (.str i) f.ignore_case .FMM_GLOB)
  let im ← IgnoreFileMatcher.initEnable f.no_ignore
  let ftm ← FileTypeMatcher.init filetypes
  let dm ← DepthMatcher.initWithin rootParts depth_exact depth_min depth_max depth_within
  let ctm ← ChangeTimeMatcher.init time_older time_newer time_within
  let fm ← FilenameMather.init lib.reCompile pattern f.ignore_case .FMM_STR
  let sm ← SizeMatcher.init size_min size_max size_within
  let sufm := SuffixMatcher.init suffixes
  let mrm := MaxResultMatcher.init max_result
  let c : Pipeline := ⟨lib, hm, excl, im, ftm, dm, ctm, fm, sm, sufm⟩
  let (files, _) ← walkNode c rootParts root mrm
  .ok files

/-! ## Concrete sample data used by witnesses and counterexamples -/

/-- A plain regular-file entry of size 0. -/
def e0 : Entry := ⟨["/", "x"], .regular, 0, 0, 0⟩

/-- The tree `root/{a.py, .hidden, sub/{b.go, c.py}}` of the end-to-end
example, rooted at `/root`. -/
def c1Tree : FSNode :=
  .dir "root" 0 0
    [.file "a.py" 1 0, .file ".hidden" 1 0,
     .dir "sub" 0 0 [.file "b.go" 1 0, .file "c.py" 1 0]]

/-- An always-true predicate on entries. -/
def predTrue : Entry → Bool := fun _ => true

/-- A predicate checking the entry name. -/
def predNameX : Entry → Bool := fun e => e.name == "x"

/-! ## Helper lemmas -/

/-- Unfolding `mrmRun` on a cons cell. -/
theorem mrmRun_cons (m : MaxResultMatcher) (e : Entry) (es : List Entry) :
    mrmRun m (e :: es) =
      ((m.match' e).1 :: (mrmRun (m.match' e).2 es).1,
       (mrmRun (m.match' e).2 es).2) := rfl

/-- `mrmRun` produces one boolean per evaluation. -/
theorem mrmRun_length (es : List Entry) :
    ∀ m : MaxResultMatcher, (mrmRun m es).1.length = es.length := by
  induction es with
  | nil => intro m; rfl
  | cons e es ih => intro m; rw [mrmRun_cons]; simp [ih]

/-- With a positive cap, one `match` step returns whether the running
count is still below the cap and increments the count. -/
theorem mrm_step_pos (N : Int) (c : Nat) (e : Entry) (hN : 0 < N) :
    (MaxResultMatcher.mk N c).match' e = (decide ((c : Int) < N), ⟨N, c + 1⟩) := by
  simp [MaxResultMatcher.match', hN]

/-- With a positive cap, the i-th of a sequence of evaluations started
at count `c` returns true exactly when `c + i` is below the cap. -/
theorem mrmRun_get (N : Int) (hN : 0 < N) (es : List Entry) :
    ∀ c i, i < es.length →
      (mrmRun ⟨N, c⟩ es).1.get? i = some (decide ((c : Int) + i < N)) := by
  induction es with
  | nil => intro c i hi; simp at hi
  | cons e es ih =>
    intro c i hi
    rw [mrmRun_cons, mrm_step_pos N c e hN]
    cases i with
    | zero => simp
    | succ j =>
      have hj : j < es.length := by simpa using hi
      have := ih (c + 1) j hj
      simp only [List.get?_cons_succ]
      rw [this]
      congr 1
      congr 1
      push_cast
      ring_nf

/-- With a non-positive cap every evaluation returns true and the state
never changes. -/
theorem mrmRun_uncapped (N : Int) (hN : N ≤ 0) (es : List Entry) :
    ∀ c, (mrmRun ⟨N, c⟩ es).1 = List.replicate es.length true := by
  induction es with
  | nil => intro c; rfl
  | cons e es ih =>
    intro c
    have hstep : (MaxResultMatcher.mk N c).match' e = (true, ⟨N, c⟩) := by
      simp [MaxResultMatcher.match']
      omega
    rw [mrmRun_cons, hstep]
    simp [ih, List.replicate_succ]

/-- `FilenameMather.init` on a string pattern in regex mode reduces to
compiling the pattern (no lowering happens in regex mode). -/
theorem filenameInit_re_str (compile : String → Except PyError (String → Bool))
    (s : String) (ic : Bool) :
    FilenameMather.init compile (.str s) ic .FMM_RE
      = (compile s).bind (fun r => .ok ⟨.FMM_RE, .compiled r, ic⟩) := by
  cases ic <;> rfl

/-- `MultiMatcher.match'` is `all` over the wrapped predicates. -/
theorem multiMatch_eq_all (ms : List (Entry → Bool)) (e : Entry) :
    MultiMatcher.match' ms e = ms.all (fun m => m e) := by
  cases ms <;> rfl

/-! ## Claim theorems -/

/-- C1. The claim says the end-to-end search of
`root/{a.py, .hidden, sub/{b.go, c.py}}` with `suffixes=["py"]`,
hidden-visible false and `depth-max=2` yields `{root/a.py, root/sub/c.py}`.
The code instead raises `TypeError` while building the matcher pipeline —
`Finder.find` (find.py:64) calls `IgnoreFileMatcher(enable=self.no_ignore)`
but `IgnoreFileMatcher.__init__` (match.py:115) accepts no keyword — so no
traversal happens and no match is produced, for every choice of library
collaborators. -/
theorem C1_find_raises_typeerror (lib : PyLib) :
    Finder.default.find lib (.str "") ["/", "root"] c1Tree
      none none false none none false [] none none (some 2) false
      ["py"] [] 0 = .error .typeError := rfl

/-- C2. Result budget: through one `MaxResultMatcher` instance, the i-th
of a sequence of `match` evaluations (in evaluation order, whichever
combinator routed it) returns true exactly when `i` is below a positive
cap — so the first `N` return true and the remaining `M - N` false — and
a cap `≤ 0` makes every evaluation return true. -/
theorem C2_result_budget (N : Int) (es : List Entry) :
    ((mrmRun (MaxResultMatcher.init N) es).1.length = es.length)
    ∧ (0 < N → ∀ i, i < es.length →
        (mrmRun (MaxResultMatcher.init N) es).1.get? i
          = some (decide ((i : Int) < N)))
    ∧ (N ≤ 0 →
        (mrmRun (MaxResultMatcher.init N) es).1
          = List.replicate es.length true) := by
  refine ⟨mrmRun_length es _, fun hN i hi => ?_, fun hN => mrmRun_uncapped N hN es 0⟩
  have := mrmRun_get N hN es 0 i hi
  simpa using this

/-- Witness for C2 at cap 1 over two evaluations: the first returns
true, the second false. -/
theorem C2_result_budget_witness :
    (mrmRun (MaxResultMatcher.init 1) [e0, e0]).1.get? 0 = some true
    ∧ (mrmRun (MaxResultMatcher.init 1) [e0, e0]).1.get? 1 = some false := by
  have h := C2_result_budget 1 [e0, e0]
  have h0 := h.2.1 (by norm_num) 0 (by norm_num)
  have h1 := h.2.1 (by norm_num) 1 (by norm_num)
  exact ⟨by simpa using h0, by simpa using h1⟩

/-- C3. The claim says `ChangeTimeMatcher` construction with both
`older` and `newer` provided, `older < newer` and `within=True`
succeeds. The code asserts `newer is None` first (match.py:211), so this
construction raises `AssertionError`. -/
theorem C3_within_construction_raises :
    ChangeTimeMatcher.init (some 10) (some 20) true = .error .assertionError := rfl

/-- C4. The claim says ignore-case matching lower-cases both the pattern
and the entry name, so exact-mode pattern `"foo"` matches name `"FOO"`.
In the code the lowered name is computed and then discarded
(match.py:61-63 vs 64-71): the comparison uses the raw `path.name`, so
the match returns `False`. -/
theorem C4_ignore_case_name_not_lowered :
    Except.bind
      (FilenameMather.init (fun _ => .error .reError) (.str "foo") true .FMM_EXACT)
      (fun m => m.match' (fun _ _ => false) ⟨["/", "FOO"], .regular, 0, 0, 0⟩)
      = .ok false := rfl

/-- C5 counterexample. The claim says that with only `min` set —
including `min = 0` — an entry matches iff `size > min`. With
`min = some 0` and an entry of size 0 the code returns `True`
(`if self.min:` is falsy for 0), while `size > min` is false. -/
theorem C5_counterexample :
    SizeMatcher.match' ⟨some 0, none, false⟩ e0 = .ok true
    ∧ ¬ (e0.size > 0) := ⟨rfl, by decide⟩

/-- C5 amended: without `within`, a bound is honored only when truthy
(non-zero). A non-zero `min` alone gives `size > min` and silences any
`max`; with `min` unset or zero, a non-zero `max` gives `size < max`;
with both unset or zero every entry matches. -/
theorem C5_size_no_within (mn mx : Option Int) (e : Entry) :
    (∀ a, mn = some a → a ≠ 0 →
        SizeMatcher.match' ⟨mn, mx, false⟩ e = .ok (decide (e.size > a)))
    ∧ ((mn = none ∨ mn = some 0) → ∀ b, mx = some b → b ≠ 0 →
        SizeMatcher.match' ⟨mn, mx, false⟩ e = .ok (decide (e.size < b)))
    ∧ ((mn = none ∨ mn = some 0) → (mx = none ∨ mx = some 0) →
        SizeMatcher.match' ⟨mn, mx, false⟩ e = .ok true) := by
  refine ⟨fun a ha ha0 => ?_, fun hmn b hb hb0 => ?_, fun hmn hmx => ?_⟩
  · subst ha
    simp [SizeMatcher.match', optTruthy, ha0]
  · subst hb
    rcases hmn with h | h <;> subst h <;>
      simp [SizeMatcher.match', optTruthy, hb0]
  · rcases hmn with h | h <;> rcases hmx with h' | h' <;> subst h <;> subst h' <;>
      simp [SizeMatcher.match', optTruthy]

/-- Witness for C5 amended: `min = 2` alone rejects a size-0 entry even
though `max = 99` is also set. -/
theorem C5_size_no_within_witness :
    SizeMatcher.match' ⟨some 2, some 99, false⟩ e0 = .ok (decide (e0.size > 2)) :=
  (C5_size_no_within (some 2) (some 99) e0).1 2 rfl (by norm_num)

/-- C6 counterexample. The claim says a request for a capability-gapped
feature (ignore-file support, executable file-kind) fails at
configuration time, not at the first match-time invocation. Both
constructions succeed and the failure is raised by `match`. -/
theorem C6_counterexample :
    FileTypeMatcher.init [.str "x"] = .ok ⟨[.str "x"]⟩
    ∧ FileTypeMatcher.match' ⟨[.str "x"]⟩ e0 = .error .notImplementedError
    ∧ IgnoreFileMatcher.init = .ok ⟨⟩
    ∧ IgnoreFileMatcher.match' ⟨⟩ e0 = .error .notImplementedError :=
  ⟨rfl, rfl, rfl, rfl⟩

/-- C6 amended: an invalid regular expression and a `within` range with
missing or inverted bounds are raised at construction time (and so is
every `within=True` time-range construction), while the
capability-gapped ignore-file and executable-kind features construct
successfully and raise only at the first match-time invocation. -/
theorem C6_config_vs_match_errors :
    (∀ (compile : String → Except PyError (String → Bool)) (s : String)
        (er : PyError) (ic : Bool),
        compile s = .error er →
        FilenameMather.init compile (.str s) ic .FMM_RE = .error er)
    ∧ (∀ mx, SizeMatcher.init none mx true = .error .assertionError)
    ∧ (∀ a : Int, SizeMatcher.init (some a) none true = .error .assertionError)
    ∧ (∀ a b : Int, b ≤ a →
        SizeMatcher.init (some a) (some b) true = .error .assertionError)
    ∧ (∀ o n : Option Int, ∃ er, ChangeTimeMatcher.init o n true = .error er)
    ∧ (∀ ts, FileTypeMatcher.init ts = .ok ⟨ts⟩)
    ∧ (∀ e, FileTypeMatcher.match' ⟨[.str "x"]⟩ e = .error .notImplementedError)
    ∧ (IgnoreFileMatcher.init = .ok ⟨⟩)
    ∧ (∀ im e, IgnoreFileMatcher.match' im e = .error .notImplementedError) := by
  refine ⟨fun compile s er ic h => ?_, fun mx => rfl, fun a => rfl,
    fun a b hba => ?_, fun o n => ?_, fun ts => rfl, fun e => rfl, rfl,
    fun im e => rfl⟩
  · rw [filenameInit_re_str, h]
    rfl
  · simp only [SizeMatcher.init, if_true]
    rw [if_neg]
    omega
  · cases n with
    | some b => exact ⟨.assertionError, rfl⟩
    | none =>
      cases o with
      | some a => exact ⟨.assertionError, rfl⟩
      | none => exact ⟨.typeError, rfl⟩

/-- Witness for C6 amended: a failing compile surfaces from
`FilenameMather` construction, and inverted `within` bounds surface
from `SizeMatcher` construction. -/
theorem C6_config_vs_match_errors_witness :
    FilenameMather.init (fun _ => .error .reError) (.str "(") false .FMM_RE
      = .error .reError
    ∧ SizeMatcher.init (some 5) (some 3) true = .error .assertionError :=
  ⟨C6_config_vs_match_errors.1 (fun _ => .error .reError) "(" .reError false rfl,
   C6_config_vs_match_errors.2.2.2.1 5 3 (by norm_num)⟩

/-- C7 counterexample. The claim says invocations made after the cap has
been reached do not increment the counter. With cap 1 the first
invocation brings the count to the cap, yet the second invocation — which
already returns false — still increments the counter to 2. -/
theorem C7_counterexample :
    (((MaxResultMatcher.init 1).match' e0).2.count = 1)
    ∧ ((((MaxResultMatcher.init 1).match' e0).2.match' e0).1 = false)
    ∧ ((((MaxResultMatcher.init 1).match' e0).2.match' e0).2.count = 2) := by
  refine ⟨?_, ?_, ?_⟩ <;> rfl

/-- C7 amended: the shared counter increments exactly once per `match`
invocation whenever the cap is positive — including invocations made
after the cap has been reached — and never increments (nor changes any
state) when the cap is not positive; the step depends only on the
matcher's own state, independent of which combinator performed the
call. -/
theorem C7_counter_increment (m : MaxResultMatcher) (e : Entry) :
    (0 < m.max → (m.match' e).2 = ⟨m.max, m.count + 1⟩)
    ∧ (m.max ≤ 0 → (m.match' e).2 = m) := by
  constructor <;> intro h
  · simp [MaxResultMatcher.match', h]
  · have : ¬ 0 < m.max := by omega
    simp [MaxResultMatcher.match', this]

/-- Witness for C7 amended: with cap 1 and count already 1 (cap
reached), one more invocation still moves the counter to 2. -/
theorem C7_counter_increment_witness :
    ((MaxResultMatcher.mk 1 1).match' e0).2 = ⟨1, 2⟩ :=
  (C7_counter_increment ⟨1, 1⟩ e0).1 (by norm_num)

/-- C8. Depth predicate: depth is the part-count difference; exactly one
of exact/min/max is honored, in that priority order, `min`/`max`
strictly; none set matches everything; concretely, for root `/a` and
entry `/a/b/c` (depth 2), `max=2` rejects and `max=3` accepts. -/
theorem C8_depth (m : DepthMatcher) (e : Entry)
    (h : m.cur.length ≤ e.parts.length) :
    (∀ ex, m.exact = some ex →
        m.match' e = .ok (decide (ex = (e.parts.length : Int) - m.cur.length)))
    ∧ (m.exact = none → ∀ mn, m.min = some mn →
        m.match' e = .ok (decide ((e.parts.length : Int) - m.cur.length > mn)))
    ∧ (m.exact = none → m.min = none → ∀ mx, m.max = some mx →
        m.match' e = .ok (decide ((e.parts.length : Int) - m.cur.length < mx)))
    ∧ (m.exact = none → m.min = none → m.max = none → m.match' e = .ok true)
    ∧ (DepthMatcher.match' ⟨["/", "a"], some 2, none, none⟩
        ⟨["/", "a", "b", "c"], .regular, 0, 0, 0⟩ = .ok false)
    ∧ (DepthMatcher.match' ⟨["/", "a"], some 3, none, none⟩
        ⟨["/", "a", "b", "c"], .regular, 0, 0, 0⟩ = .ok true) := by
  have hd : ¬ ((e.parts.length : Int) - (m.cur.length : Int) < 0) := by omega
  refine ⟨fun ex hex => ?_, fun h1 mn hmn => ?_, fun h1 h2 mx hmx => ?_,
    fun h1 h2 h3 => ?_, rfl, rfl⟩ <;>
    simp [DepthMatcher.match', hd, *]

/-- Witness for C8 at root `/a`, entry `/a/b/c`, `max = 3`. -/
theorem C8_depth_witness :
    DepthMatcher.match' ⟨["/", "a"], some 3, none, none⟩
      ⟨["/", "a", "b", "c"], .regular, 0, 0, 0⟩
      = .ok (decide ((([ "/", "a", "b", "c"].length : Int) - ["/", "a"].length) < 3)) :=
  (C8_depth ⟨["/", "a"], some 3, none, none⟩
    ⟨["/", "a", "b", "c"], .regular, 0, 0, 0⟩ (by norm_num)).2.2.1 rfl rfl 3 rfl

/-- C9. Combinator AND semantics: the combinator accepts exactly when
every wrapped predicate accepts, the empty combinator accepts
everything, and for side-effect-free predicates the boolean result is
invariant under permutation of the predicate list. -/
theorem C9_multi_and (ms : List (Entry → Bool)) (e : Entry) :
    (MultiMatcher.match' ms e = true ↔ ∀ m ∈ ms, m e = true)
    ∧ (MultiMatcher.match' [] e = true)
    ∧ (∀ ms', ms.Perm ms' →
        MultiMatcher.match' ms e = MultiMatcher.match' ms' e) := by
  refine ⟨?_, rfl, fun ms' hp => ?_⟩
  · rw [multiMatch_eq_all]
    exact List.all_eq_true
  · rw [multiMatch_eq_all, multiMatch_eq_all]
    rw [Bool.eq_iff_iff]
    simp only [List.all_eq_true]
    exact ⟨fun H m hm => H m (hp.mem_iff.mpr hm),
           fun H m hm => H m (hp.mem_iff.mp hm)⟩

/-- Witness for C9: swapping two concrete predicates leaves the result
unchanged. -/
theorem C9_multi_and_witness :
    MultiMatcher.match' [predTrue, predNameX] e0
      = MultiMatcher.match' [predNameX, predTrue] e0 :=
  (C9_multi_and [predTrue, predNameX] e0).2.2 [predNameX, predTrue]
    (List.Perm.swap predNameX predTrue [])

/-- C10. Constructing `FilenameMather` with an already-compiled pattern
forces regex mode whatever the `mode` argument was, and matching then
applies the compiled pattern to the entry's base name. -/
theorem C10_compiled_pattern_forces_re
    (compile : String → Except PyError (String → Bool))
    (fnm : String → String → Bool) (r : String → Bool) (ic : Bool)
    (mode : FilenameMatchMode) (e : Entry) :
    FilenameMather.init compile (.compiled r) ic mode
      = .ok ⟨.FMM_RE, .compiled r, ic⟩
    ∧ FilenameMather.match' fnm ⟨.FMM_RE, .compiled r, ic⟩ e
      = .ok (r e.name) := ⟨rfl, rfl⟩
